import Mathlib

/-!
# The ticket-purchase handler `MakeCharge` (`pkg/api/charge/charge.go`)

A shallow embedding of the handler and of `isOneOf`.  The handler is a straight-line
procedure that talks to collaborators living outside the file (the Stripe client, the
e-mail helper, the UUN check, the e-mail format check, the UUID generator).  Each
collaborator is a field of `Impl`: a function from the arguments of the call to its
result.  A run of the handler is the list of provider calls it made, in order, together
with the response it wrote.

Go strings are byte strings; the ones the handler sees were decoded from JSON and are
valid UTF-8, so a Lean `String` stands for one and Go's `len` is `String.utf8ByteSize`.
-/

namespace charge

/-! ## Data model -/

/-- The anonymous struct `result` the JSON body is bound to (lines 25-36). -/
structure Request where
  Token : String
  FullName : String
  UUN : String
  Email : String
  Over18 : Bool
  Starter : String
  Main : String
  Dessert : String
  SpecialReqs : String
deriving DecidableEq, Repr

/-- A Go `error` as the handler tells errors apart: the type assertion
`err.(*stripe.Error)` succeeds on `stripeError` and gives access to its `Msg` field;
`text` is what the method `Error()` returns. -/
inductive GoError where
  | stripeError (Msg : String) (text : String)
  | other (text : String)
deriving DecidableEq, Repr

/-- The method `err.Error()`. -/
def GoError.Error : GoError → String
  | .stripeError _ text => text
  | .other text => text

/-- The type `gin.H`, a JSON object; the pairs are kept in the order the source writes them. -/
abbrev H := List (String × String)

/-- What `c.JSON(code, body)` writes. -/
structure Response where
  code : Nat
  body : H
deriving DecidableEq, Repr

/-- The constant `http.StatusOK`. -/
def StatusOK : Nat := 200
/-- The constant `http.StatusBadRequest`. -/
def StatusBadRequest : Nat := 400
/-- The constant `http.StatusGone`. -/
def StatusGone : Nat := 410
/-- The constant `http.StatusInternalServerError`. -/
def StatusInternalServerError : Nat := 500

/-- The type `stripe.Inventory`: only the field the handler reads (an `int64`). -/
structure Inventory where
  Quantity : Int
deriving DecidableEq, Repr

/-- The type `stripe.SKU`: only the field the handler reads. -/
structure SKU where
  Inventory : Inventory
deriving DecidableEq, Repr

/-- The type `stripe.Charge`: only the field the handler reads. -/
structure Charge where
  ID : String
deriving DecidableEq, Repr

/-- The type `stripe.Order`: the fields the handler reads.  In the client API the file is
written against (`Desc`, `Params.Meta`, package `currency`) `Charge` is a struct value, as
`Inventory` is in `stripe.SKU`: an order that carries no charge holds the zero value, a
charge whose `ID` is the empty string. -/
structure Order where
  ID : String
  Charge : Charge
deriving DecidableEq, Repr

/-- The type `stripe.OrderItemParams`.  The literal at lines 104-107 sets `Type` (here `ItemType`,
`Type` being reserved) and `Parent` only; `Quantity` is the field of the library type
that the literal leaves at its zero value (`none`: no quantity is written into the
request). -/
structure OrderItemParams where
  ItemType : String
  Parent : String
  Quantity : Option Int := none
deriving DecidableEq, Repr

/-- The type `stripe.OrderParams` as the literal at lines 101-125 fills it; `Meta` is
`Params.Meta`, a `map[string]string` whose keys are pairwise distinct. -/
structure OrderParams where
  Currency : String
  Items : List OrderItemParams
  Meta : List (String × String)
  Email : String
deriving DecidableEq, Repr

/-- The type `stripe.OrderPayParams` after `SetSource(token)`. -/
structure OrderPayParams where
  Source : String
deriving DecidableEq, Repr

/-- The type `stripe.ChargeParams` as the literal at lines 156-158 fills it. -/
structure ChargeParams where
  Desc : String
deriving DecidableEq, Repr

/-- The constant `currency.GBP`. -/
def GBP : String := "gbp"

/-- The function `strconv.FormatBool`. -/
def FormatBool (b : Bool) : String := if b then "true" else "false"

/-- How a `Charges.Update` call running in its own goroutine can end. -/
inductive UpdateOutcome where
  | success
  | failure (err : GoError)
  | neverCompletes
deriving DecidableEq, Repr

/-- The receiver `i` and the collaborators of the handler, each as the function it
computes for this request. -/
structure Impl where
  /-- The product identifier `i.Config.Stripe.SKU`. -/
  ConfigSKU : String
  /-- The call `i.Stripe.Skus.Get(id, nil)`. -/
  SkusGet : String → Except GoError SKU
  /-- The call `i.Stripe.Orders.New(params)`. -/
  OrdersNew : OrderParams → Except GoError Order
  /-- The call `i.Stripe.Orders.Pay(id, params)`. -/
  OrdersPay : String → OrderPayParams → Except GoError Order
  /-- The call `i.Stripe.Charges.Update(id, params)`, run by the `go` statement. -/
  ChargesUpdate : String → ChargeParams → UpdateOutcome
  /-- The call `checkmail.ValidateFormat(email)`; `none` is a `nil` error. -/
  ValidateFormat : String → Option GoError
  /-- The verdict of the UUN format check on a UUN: `none` when the UUN is accepted,
  otherwise the message of the rejection. -/
  UUNProblem : String → Option String
  /-- The verdict of the e-mail provider (through `i.Mailgun`) on sending the ticket
  e-mail with this name, address, order id and authorization token: `none` when the
  send succeeds, otherwise the message of the failure. -/
  MailProblem : String → String → String → String → Option String
  /-- The string `uuid.New().String()` generated for this request. -/
  NewUUID : String

/-- A call that leaves the handler for a provider. -/
inductive Call where
  | SkusGet (id : String)
  | OrdersNew (params : OrderParams)
  | OrdersPay (id : String) (params : OrderPayParams)
  /-- The `go i.Stripe.Charges.Update(...)` statement: the call is launched, not awaited. -/
  | ChargesUpdate (id : String) (params : ChargeParams)
  | SendTicketEmail (fullName email orderID authToken : String)
deriving DecidableEq, Repr

/-- The five kinds of provider call. -/
inductive CallKind where
  | availability
  | createOrder
  | payOrder
  | annotateCharge
  | sendEmail
deriving DecidableEq, Repr

/-- The kind of a call. -/
def Call.kind : Call → CallKind
  | .SkusGet _ => .availability
  | .OrdersNew _ => .createOrder
  | .OrdersPay _ _ => .payOrder
  | .ChargesUpdate _ _ => .annotateCharge
  | .SendTicketEmail _ _ _ _ => .sendEmail

/-- Whether the provider answered a call with success (for the availability check:
with success and a non-zero inventory count). -/
def Call.succeeded (i : Impl) : Call → Bool
  | .SkusGet id =>
    match i.SkusGet id with
    | .ok sku => decide (sku.Inventory.Quantity ≠ 0)
    | .error _ => false
  | .OrdersNew params =>
    match i.OrdersNew params with
    | .ok _ => true
    | .error _ => false
  | .OrdersPay id params =>
    match i.OrdersPay id params with
    | .ok _ => true
    | .error _ => false
  | .ChargesUpdate id params => decide (i.ChargesUpdate id params = .success)
  | .SendTicketEmail n e o t => (i.MailProblem n e o t).isNone

/-- How a run of the handler ends: with a response written to the client. -/
inductive Outcome where
  | response (r : Response)
deriving DecidableEq, Repr

/-- A run of the handler: the provider calls it made, in order, and how it ended. -/
structure Run where
  calls : List Call
  outcome : Outcome
deriving DecidableEq, Repr

/-! ## Helpers of package `base` -/

/-- Modelled from the spec: `base.BadRequest(c, msg)`, whose body is not in the source
file.  The spec (section 6) gives the bad-request outcome as HTTP 400 with body
`{status: "error", message: <string>}`. -/
def BadRequest (msg : String) : Response :=
  { code := StatusBadRequest, body := [("status", "error"), ("message", msg)] }

/-- Modelled from the spec: `base.CheckUUN(c, uun)`, whose body is not in the source
file.  The spec (section 4.1, check 5) makes it a format check whose failure maps to a
bad-request outcome with a human-readable message.  `none` stands for the return value
`true` (nothing written); `some r` for `false` after writing `r`. -/
def CheckUUN (i : Impl) (uun : String) : Option Response :=
  match i.UUNProblem uun with
  | none => none
  | some msg => some (BadRequest msg)

/-- Modelled from the spec: `base.SendTicketEmail(c, mailgun, name, email, id, token)`,
whose body is not in the source file.  The spec (sections 4.1 step 6 and 6) surfaces a
failed send to the caller as HTTP 400 with body `{status: "error", message: <string>}`.
`none` stands for the return value `true` (nothing written); `some r` for `false` after
writing `r`. -/
def SendTicketEmail (i : Impl) (fullName email orderID authToken : String) :
    Option Response :=
  match i.MailProblem fullName email orderID authToken with
  | none => none
  | some msg => some (BadRequest msg)

/-! ## The source file -/

/-- The function `isOneOf` (lines 15-22): the loop over the variadic arguments. -/
def isOneOf (one : String) : List String → Bool
  | [] => false
  | v :: rest => if v = one then true else isOneOf one rest

/-- The message surfaced for a provider error (lines 79-82, 128-131, 147-150):
`msg := err.Error()`, overwritten by `stripeErr.Msg` when the error is a `*stripe.Error`. -/
def errorMessage (err : GoError) : String :=
  let msg := err.Error
  match err with
  | .stripeError Msg _ => Msg
  | .other _ => msg

/-- The menu check of line 67, as the condition under which the handler rejects. -/
def badFoodSelection (result : Request) : Bool :=
  !isOneOf result.Starter ["soup", "salmon", "pork"]
    || !isOneOf result.Main ["beef", "salmon", "chicken", "mushrooms"]
    || !isOneOf result.Dessert ["brownie", "toffee"]

/-- The order parameters built at lines 101-125. -/
def orderParams (i : Impl) (result : Request) (authToken : String) : OrderParams :=
  { Currency := GBP
    Items := [{ ItemType := "sku", Parent := i.ConfigSKU }]
    Meta :=
      [ ("uun", result.UUN),
        ("purchaser_email", result.Email),
        ("purchaser_name", result.FullName),
        ("owner_email", result.Email),
        ("owner_name", result.FullName),
        ("over18", FormatBool result.Over18),
        ("meal_starter", result.Starter),
        ("meal_main", result.Main),
        ("meal_dessert", result.Dessert),
        ("special_requests", result.SpecialReqs),
        ("auth_token", authToken) ]
    Email := result.Email }

/-- Lines 77-167: what the handler does once validation has passed. -/
def placeOrder (i : Impl) (result : Request) : Run :=
  match i.SkusGet i.ConfigSKU with
  | .error err =>
    { calls := [.SkusGet i.ConfigSKU]
      outcome := .response
        { code := StatusInternalServerError
          body := [("status", "error"), ("message", errorMessage err)] } }
  | .ok sku =>
    if sku.Inventory.Quantity = 0 then
      { calls := [.SkusGet i.ConfigSKU]
        outcome := .response
          { code := StatusGone
            body := [("status", "error"),
                     ("message", "Sorry! We have run out of tickets... for now.")] } }
    else
      let authToken := i.NewUUID
      let newParams := orderParams i result authToken
      match i.OrdersNew newParams with
      | .error err =>
        { calls := [.SkusGet i.ConfigSKU, .OrdersNew newParams]
          outcome := .response
            { code := StatusInternalServerError
              body := [("status", "error"), ("message", errorMessage err)] } }
      | .ok order =>
        let params : OrderPayParams := { Source := result.Token }
        match i.OrdersPay order.ID params with
        | .error err =>
          { calls := [.SkusGet i.ConfigSKU, .OrdersNew newParams, .OrdersPay order.ID params]
            outcome := .response (BadRequest (errorMessage err)) }
        | .ok o =>
          -- `go i.Stripe.Charges.Update(o.Charge.ID, ...)`: launched, result never read
          let update := Call.ChargesUpdate o.Charge.ID { Desc := "Informatics Ball Ticket" }
          let send := Call.SendTicketEmail result.FullName result.Email o.ID authToken
          match SendTicketEmail i result.FullName result.Email o.ID authToken with
          | some r =>
            { calls := [.SkusGet i.ConfigSKU, .OrdersNew newParams,
                        .OrdersPay order.ID params, update, send]
              outcome := .response r }
          | none =>
            { calls := [.SkusGet i.ConfigSKU, .OrdersNew newParams,
                        .OrdersPay order.ID params, update, send]
              outcome := .response
                { code := StatusOK
                  body := [("status", "success"), ("data", o.ID)] } }

/-- Lines 43-75: the validation chain, applied to a decoded request. -/
def validateAndCharge (i : Impl) (result : Request) : Run :=
  if result.Token = "" then
    { calls := [], outcome := .response (BadRequest "Stripe token missing.") }
  else if !result.Over18 then
    { calls := []
      outcome := .response (BadRequest "You must be atleast 18 years of age to attend.") }
  else if result.FullName = "" then
    { calls := [], outcome := .response (BadRequest "Full name missing.") }
  else if (i.ValidateFormat result.Email).isSome then
    { calls := []
      outcome := .response (BadRequest
        "Invalid email format provided. Please email infball@comp-soc.com if this is a mistake.") }
  else
    match CheckUUN i result.UUN with
    | some r => { calls := [], outcome := .response r }
    | none =>
      if badFoodSelection result then
        { calls := [], outcome := .response (BadRequest "Invalid food selection.") }
      else if result.SpecialReqs.utf8ByteSize > 500 then
        { calls := []
          outcome := .response (BadRequest
            "Sorry, your request is limited to 500 characters. Please email infball@comp-soc.com for assistance.") }
      else
        placeOrder i result

/-- The handler `MakeCharge` (lines 24-168).  The argument is what `c.BindJSON(&result)` made of the
request body: the decoded struct, or the text of the decoding error. -/
def MakeCharge (i : Impl) (bound : Except String Request) : Run :=
  match bound with
  | .error err => { calls := [], outcome := .response (BadRequest err) }
  | .ok result => validateAndCharge i result

/-! ## Vocabulary of the specification -/

/-- The seven validation checks, named as the specification numbers them. -/
inductive Check where
  | token
  | over18
  | fullName
  | email
  | uun
  | menu
  | specialRequests
deriving DecidableEq, Repr

/-- The order in which the specification lists the checks. -/
def validationOrder : List Check :=
  [.token, .over18, .fullName, .email, .uun, .menu, .specialRequests]

/-- Whether a request fails a check: the condition the handler tests for it. -/
def Check.fails (i : Impl) (r : Request) : Check → Bool
  | .token => decide (r.Token = "")
  | .over18 => !r.Over18
  | .fullName => decide (r.FullName = "")
  | .email => (i.ValidateFormat r.Email).isSome
  | .uun => (i.UUNProblem r.UUN).isSome
  | .menu => badFoodSelection r
  | .specialRequests => decide (r.SpecialReqs.utf8ByteSize > 500)

/-- The message a failing check answers with. -/
def Check.message (i : Impl) (r : Request) : Check → String
  | .token => "Stripe token missing."
  | .over18 => "You must be atleast 18 years of age to attend."
  | .fullName => "Full name missing."
  | .email =>
    "Invalid email format provided. Please email infball@comp-soc.com if this is a mistake."
  | .uun => (i.UUNProblem r.UUN).getD ""
  | .menu => "Invalid food selection."
  | .specialRequests =>
    "Sorry, your request is limited to 500 characters. Please email infball@comp-soc.com for assistance."

/-- A request passes validation when it fails none of the seven checks. -/
def Validated (i : Impl) (r : Request) : Prop :=
  ∀ c : Check, c.fails i r = false

/-- The sold-out response of the specification. -/
def soldOut : Response :=
  { code := 410
    body := [("status", "error"), ("message", "Sorry! We have run out of tickets... for now.")] }

/-! ## Sample collaborators and requests -/

/-- A request that passes every check. -/
def sampleRequest : Request :=
  { Token := "tok_visa"
    FullName := "Ada Lovelace"
    UUN := "s1234567"
    Email := "ada@example.org"
    Over18 := true
    Starter := "soup"
    Main := "beef"
    Dessert := "brownie"
    SpecialReqs := "no nuts" }

/-- Collaborators that all answer with success: five tickets left, the created order is
`or_1` (not yet charged), paying an order returns it under the same id with charge `ch_1`. -/
def sampleImpl : Impl :=
  { ConfigSKU := "sku_ticket"
    SkusGet := fun _ => .ok { Inventory := { Quantity := 5 } }
    OrdersNew := fun _ => .ok { ID := "or_1", Charge := { ID := "" } }
    OrdersPay := fun id _ => .ok { ID := id, Charge := { ID := "ch_1" } }
    ChargesUpdate := fun _ _ => .success
    ValidateFormat := fun _ => none
    UUNProblem := fun _ => none
    MailProblem := fun _ _ _ _ => none
    NewUUID := "3f2c9a4e-0000-4000-8000-000000000001" }

/-- The payment call answers with an order filed under another id (`or_2`) than the
one the creation call returned (`or_1`). -/
def renamingImpl : Impl :=
  { sampleImpl with
    OrdersPay := fun _ _ => .ok { ID := "or_2", Charge := { ID := "ch_1" } } }

/-- The background annotation of the charge ends with an error. -/
def failedAnnotationImpl : Impl :=
  { sampleImpl with ChargesUpdate := fun _ _ => .failure (.other "charge update refused") }

/-- The payment call succeeds with an order that carries no charge (the zero value of
`stripe.Charge`), and the background annotation never completes. -/
def noChargeImpl : Impl :=
  { sampleImpl with
    OrdersPay := fun id _ => .ok { ID := id, Charge := { ID := "" } }
    ChargesUpdate := fun _ _ => .neverCompletes }

/-- No ticket is left. -/
def soldOutImpl : Impl :=
  { sampleImpl with SkusGet := fun _ => .ok { Inventory := { Quantity := 0 } } }

/-- The card is declined: the payment call answers with a structured provider error. -/
def declinedImpl : Impl :=
  { sampleImpl with
    OrdersPay := fun _ _ =>
      .error (.stripeError "Your card was declined." "card_error: card_declined") }

/-- The e-mail provider refuses the confirmation e-mail. -/
def mailFailureImpl : Impl :=
  { sampleImpl with MailProblem := fun _ _ _ _ => some "Unable to send email." }

/-- The sample request with a special-requests text of 251 two-byte characters. -/
def accentedRequest : Request :=
  { sampleRequest with SpecialReqs := String.mk (List.replicate 251 'é') }

/-- The sample request with an empty token and the over-18 box unticked. -/
def noTokenMinorRequest : Request :=
  { sampleRequest with Token := "", Over18 := false }

/-- The sample request with a starter that is not on the menu. -/
def pizzaRequest : Request :=
  { sampleRequest with Starter := "pizza" }

/-! ## Lemmas on the validation chain -/

theorem validated_iff (i : Impl) (r : Request) :
    Validated i r ↔
      r.Token ≠ "" ∧ r.Over18 = true ∧ r.FullName ≠ "" ∧ i.ValidateFormat r.Email = none ∧
        i.UUNProblem r.UUN = none ∧ badFoodSelection r = false ∧
        r.SpecialReqs.utf8ByteSize ≤ 500 := by
  constructor
  · intro h
    have h1 := h .token
    have h2 := h .over18
    have h3 := h .fullName
    have h4 := h .email
    have h5 := h .uun
    have h6 := h .menu
    have h7 := h .specialRequests
    simp [Check.fails] at h1 h2 h3 h4 h5 h6 h7
    exact ⟨h1, h2, h3, h4, h5, h6, by omega⟩
  · rintro ⟨h1, h2, h3, h4, h5, h6, h7⟩ c
    cases c <;> simp [Check.fails, *]

theorem validateAndCharge_of_validated {i : Impl} {r : Request} (h : Validated i r) :
    validateAndCharge i r = placeOrder i r := by
  obtain ⟨h1, h2, h3, h4, h5, h6, h7⟩ := (validated_iff i r).1 h
  have h7' : ¬ r.SpecialReqs.utf8ByteSize > 500 := by omega
  simp [validateAndCharge, CheckUUN, h1, h2, h3, h4, h5, h6, h7']

theorem validateAndCharge_of_fails {i : Impl} {r : Request} {c : Check}
    (hc : c.fails i r = true)
    (hearlier : ∀ c', validationOrder.indexOf c' < validationOrder.indexOf c →
      c'.fails i r = false) :
    validateAndCharge i r = { calls := [], outcome := .response (BadRequest (c.message i r)) } := by
  have h1 := hearlier .token
  have h2 := hearlier .over18
  have h3 := hearlier .fullName
  have h4 := hearlier .email
  have h5 := hearlier .uun
  have h6 := hearlier .menu
  cases c
  case token =>
    simp [Check.fails] at hc
    simp [validateAndCharge, Check.message, hc]
  case over18 =>
    have h1 := h1 (by decide)
    simp [Check.fails] at hc h1
    simp [validateAndCharge, Check.message, hc, h1]
  case fullName =>
    have h1 := h1 (by decide)
    have h2 := h2 (by decide)
    simp [Check.fails] at hc h1 h2
    simp [validateAndCharge, Check.message, hc, h1, h2]
  case email =>
    have h1 := h1 (by decide)
    have h2 := h2 (by decide)
    have h3 := h3 (by decide)
    simp [Check.fails] at hc h1 h2 h3
    simp [validateAndCharge, Check.message, hc, h1, h2, h3]
  case uun =>
    have h1 := h1 (by decide)
    have h2 := h2 (by decide)
    have h3 := h3 (by decide)
    have h4 := h4 (by decide)
    simp [Check.fails] at hc h1 h2 h3 h4
    obtain ⟨msg, hmsg⟩ := Option.isSome_iff_exists.1 hc
    simp [validateAndCharge, Check.message, CheckUUN, hmsg, h1, h2, h3, h4]
  case menu =>
    have h1 := h1 (by decide)
    have h2 := h2 (by decide)
    have h3 := h3 (by decide)
    have h4 := h4 (by decide)
    have h5 := h5 (by decide)
    simp [Check.fails] at hc h1 h2 h3 h4 h5
    simp [validateAndCharge, Check.message, CheckUUN, hc, h1, h2, h3, h4, h5]
  case specialRequests =>
    have h1 := h1 (by decide)
    have h2 := h2 (by decide)
    have h3 := h3 (by decide)
    have h4 := h4 (by decide)
    have h5 := h5 (by decide)
    have h6 := h6 (by decide)
    simp [Check.fails] at hc h1 h2 h3 h4 h5 h6
    simp [validateAndCharge, Check.message, CheckUUN, hc, h1, h2, h3, h4, h5, h6]

theorem exists_first_failure {i : Impl} {r : Request} (h : ¬ Validated i r) :
    ∃ c : Check, c.fails i r = true ∧
      ∀ c', validationOrder.indexOf c' < validationOrder.indexOf c → c'.fails i r = false := by
  by_cases h1 : Check.token.fails i r = true
  · exact ⟨.token, h1, fun c' hc' => by cases c' <;> exact absurd hc' (by decide)⟩
  by_cases h2 : Check.over18.fails i r = true
  · refine ⟨.over18, h2, fun c' hc' => ?_⟩
    cases c' <;> first | exact absurd hc' (by decide) | simpa using h1
  by_cases h3 : Check.fullName.fails i r = true
  · refine ⟨.fullName, h3, fun c' hc' => ?_⟩
    cases c' <;> first | exact absurd hc' (by decide) | simpa using h1 | simpa using h2
  by_cases h4 : Check.email.fails i r = true
  · refine ⟨.email, h4, fun c' hc' => ?_⟩
    cases c' <;>
      first | exact absurd hc' (by decide) | simpa using h1 | simpa using h2 | simpa using h3
  by_cases h5 : Check.uun.fails i r = true
  · refine ⟨.uun, h5, fun c' hc' => ?_⟩
    cases c' <;>
      first
      | exact absurd hc' (by decide) | simpa using h1 | simpa using h2 | simpa using h3
      | simpa using h4
  by_cases h6 : Check.menu.fails i r = true
  · refine ⟨.menu, h6, fun c' hc' => ?_⟩
    cases c' <;>
      first
      | exact absurd hc' (by decide) | simpa using h1 | simpa using h2 | simpa using h3
      | simpa using h4 | simpa using h5
  by_cases h7 : Check.specialRequests.fails i r = true
  · refine ⟨.specialRequests, h7, fun c' hc' => ?_⟩
    cases c' <;>
      first
      | exact absurd hc' (by decide) | simpa using h1 | simpa using h2 | simpa using h3
      | simpa using h4 | simpa using h5 | simpa using h6
  exact absurd (fun c => by
    cases c <;>
      first
      | simpa using h1 | simpa using h2 | simpa using h3 | simpa using h4
      | simpa using h5 | simpa using h6 | simpa using h7) h

theorem validateAndCharge_of_not_validated {i : Impl} {r : Request} (h : ¬ Validated i r) :
    ∃ msg, validateAndCharge i r = { calls := [], outcome := .response (BadRequest msg) } := by
  obtain ⟨c, hc, hearlier⟩ := exists_first_failure h
  exact ⟨c.message i r, validateAndCharge_of_fails hc hearlier⟩

/-- The sample request passes validation with any collaborators whose format checks
accept its e-mail address and its UUN. -/
theorem sampleRequest_validated (i : Impl) (hmail : i.ValidateFormat "ada@example.org" = none)
    (huun : i.UUNProblem "s1234567" = none) : Validated i sampleRequest := by
  rw [validated_iff]
  refine ⟨by decide, rfl, by decide, hmail, huun, by decide, by decide⟩

theorem MakeCharge_of_validated {i : Impl} {r : Request} (h : Validated i r) :
    MakeCharge i (.ok r) = placeOrder i r :=
  validateAndCharge_of_validated h

/-! ## Lemmas on the order placement sequence -/

/-- The six ways `placeOrder` can run, told apart by what the collaborators answer. -/
theorem placeOrder_cases (i : Impl) (r : Request) :
    (∃ err, i.SkusGet i.ConfigSKU = .error err ∧
      placeOrder i r =
        { calls := [.SkusGet i.ConfigSKU]
          outcome := .response
            { code := 500, body := [("status", "error"), ("message", errorMessage err)] } })
    ∨ (∃ sku, i.SkusGet i.ConfigSKU = .ok sku ∧ sku.Inventory.Quantity = 0 ∧
      placeOrder i r = { calls := [.SkusGet i.ConfigSKU], outcome := .response soldOut })
    ∨ (∃ sku err, i.SkusGet i.ConfigSKU = .ok sku ∧ sku.Inventory.Quantity ≠ 0 ∧
      i.OrdersNew (orderParams i r i.NewUUID) = .error err ∧
      placeOrder i r =
        { calls := [.SkusGet i.ConfigSKU, .OrdersNew (orderParams i r i.NewUUID)]
          outcome := .response
            { code := 500, body := [("status", "error"), ("message", errorMessage err)] } })
    ∨ (∃ sku order err, i.SkusGet i.ConfigSKU = .ok sku ∧ sku.Inventory.Quantity ≠ 0 ∧
      i.OrdersNew (orderParams i r i.NewUUID) = .ok order ∧
      i.OrdersPay order.ID { Source := r.Token } = .error err ∧
      placeOrder i r =
        { calls := [.SkusGet i.ConfigSKU, .OrdersNew (orderParams i r i.NewUUID),
                    .OrdersPay order.ID { Source := r.Token }]
          outcome := .response (BadRequest (errorMessage err)) })
    ∨ (∃ sku order o msg, i.SkusGet i.ConfigSKU = .ok sku ∧ sku.Inventory.Quantity ≠ 0 ∧
      i.OrdersNew (orderParams i r i.NewUUID) = .ok order ∧
      i.OrdersPay order.ID { Source := r.Token } = .ok o ∧
      i.MailProblem r.FullName r.Email o.ID i.NewUUID = some msg ∧
      placeOrder i r =
        { calls := [.SkusGet i.ConfigSKU, .OrdersNew (orderParams i r i.NewUUID),
                    .OrdersPay order.ID { Source := r.Token },
                    .ChargesUpdate o.Charge.ID { Desc := "Informatics Ball Ticket" },
                    .SendTicketEmail r.FullName r.Email o.ID i.NewUUID]
          outcome := .response (BadRequest msg) })
    ∨ (∃ sku order o, i.SkusGet i.ConfigSKU = .ok sku ∧ sku.Inventory.Quantity ≠ 0 ∧
      i.OrdersNew (orderParams i r i.NewUUID) = .ok order ∧
      i.OrdersPay order.ID { Source := r.Token } = .ok o ∧
      i.MailProblem r.FullName r.Email o.ID i.NewUUID = none ∧
      placeOrder i r =
        { calls := [.SkusGet i.ConfigSKU, .OrdersNew (orderParams i r i.NewUUID),
                    .OrdersPay order.ID { Source := r.Token },
                    .ChargesUpdate o.Charge.ID { Desc := "Informatics Ball Ticket" },
                    .SendTicketEmail r.FullName r.Email o.ID i.NewUUID]
          outcome := .response
            { code := 200, body := [("status", "success"), ("data", o.ID)] } }) := by
  cases h1 : i.SkusGet i.ConfigSKU with
  | error err => exact Or.inl ⟨err, rfl, by simp [placeOrder, h1, StatusInternalServerError]⟩
  | ok sku =>
    by_cases hq : sku.Inventory.Quantity = 0
    · exact Or.inr (Or.inl ⟨sku, rfl, hq, by simp [placeOrder, h1, hq, soldOut, StatusGone]⟩)
    cases h2 : i.OrdersNew (orderParams i r i.NewUUID) with
    | error err =>
      exact Or.inr (Or.inr (Or.inl ⟨sku, err, rfl, hq, rfl,
        by simp [placeOrder, h1, hq, h2, StatusInternalServerError]⟩))
    | ok order =>
      cases h3 : i.OrdersPay order.ID { Source := r.Token } with
      | error err =>
        exact Or.inr (Or.inr (Or.inr (Or.inl ⟨sku, order, err, rfl, hq, rfl, h3,
          by simp [placeOrder, h1, hq, h2, h3]⟩)))
      | ok o =>
        cases h5 : i.MailProblem r.FullName r.Email o.ID i.NewUUID with
        | some msg =>
          exact Or.inr (Or.inr (Or.inr (Or.inr (Or.inl
            ⟨sku, order, o, msg, rfl, hq, rfl, h3, h5,
              by simp [placeOrder, h1, hq, h2, h3, SendTicketEmail, h5]⟩))))
        | none =>
          exact Or.inr (Or.inr (Or.inr (Or.inr (Or.inr
            ⟨sku, order, o, rfl, hq, rfl, h3, h5,
              by simp [placeOrder, h1, hq, h2, h3, SendTicketEmail, h5, StatusOK]⟩))))

/-- A run either made no call and answered a bad request, or is the order placement
sequence of a request that passed validation. -/
theorem MakeCharge_cases (i : Impl) (bound : Except String Request) :
    (∃ msg, MakeCharge i bound = { calls := [], outcome := .response (BadRequest msg) } ∧
        ∀ r, bound = .ok r → ¬ Validated i r)
    ∨ (∃ r, bound = .ok r ∧ Validated i r ∧ MakeCharge i bound = placeOrder i r) := by
  cases bound with
  | error err => exact Or.inl ⟨err, rfl, fun r h => by cases h⟩
  | ok r =>
    by_cases hv : Validated i r
    · exact Or.inr ⟨r, rfl, hv, MakeCharge_of_validated hv⟩
    · obtain ⟨msg, h⟩ := validateAndCharge_of_not_validated hv
      exact Or.inl ⟨msg, h, fun r' h' => by cases h'; exact hv⟩

/-- What stands before a call in a list of calls is part of the list without its last
element. -/
theorem mem_dropLast_of_split {l pre post : List Call} {c x : Call}
    (h : l = pre ++ c :: post) (hx : x ∈ pre) : x ∈ l.dropLast := by
  subst h
  rw [List.dropLast_append_cons]
  exact List.mem_append_left _ hx

/-! ## The claims -/

/-- C3: validation short-circuits on the first failure in the order token, over18,
fullName, email, UUN, menu, special requests.  A decoded request that fails some check
has an earliest failing check, and the handler answers with the bad-request outcome
(HTTP 400, status "error") carrying the message of that check, without calling a
provider.  The three examples of the claim follow: empty token and over18 false gives
"Stripe token missing."; a token, over18 false and an empty name gives the over-18
message; failures of the menu and of the length limit only give "Invalid food
selection.". -/
theorem C3_validation_short_circuits (i : Impl) (r : Request) :
    (¬ Validated i r →
      ∃ c : Check, c.fails i r = true ∧
        (∀ c', validationOrder.indexOf c' < validationOrder.indexOf c → c'.fails i r = false))
    ∧ (∀ c : Check, c.fails i r = true →
        (∀ c', validationOrder.indexOf c' < validationOrder.indexOf c → c'.fails i r = false) →
        MakeCharge i (.ok r) =
          { calls := []
            outcome := .response
              { code := 400, body := [("status", "error"), ("message", c.message i r)] } })
    ∧ (r.Token = "" → r.Over18 = false →
        MakeCharge i (.ok r) =
          { calls := []
            outcome := .response
              { code := 400
                body := [("status", "error"), ("message", "Stripe token missing.")] } })
    ∧ (r.Token ≠ "" → r.Over18 = false → r.FullName = "" →
        MakeCharge i (.ok r) =
          { calls := []
            outcome := .response
              { code := 400
                body := [("status", "error"),
                         ("message", "You must be atleast 18 years of age to attend.")] } })
    ∧ ((∀ c : Check, c.fails i r = true ↔ (c = .menu ∨ c = .specialRequests)) →
        MakeCharge i (.ok r) =
          { calls := []
            outcome := .response
              { code := 400
                body := [("status", "error"), ("message", "Invalid food selection.")] } }) := by
  refine ⟨exists_first_failure, fun c hc hearlier => validateAndCharge_of_fails hc hearlier,
    fun h1 _ => ?_, fun h1 h2 _ => ?_, fun h => ?_⟩
  · exact validateAndCharge_of_fails (c := .token) (by simp [Check.fails, h1])
      (fun c' hc' => by cases c' <;> exact absurd hc' (by decide))
  · refine validateAndCharge_of_fails (c := .over18) (by simp [Check.fails, h2])
      (fun c' hc' => ?_)
    cases c' <;> first | exact absurd hc' (by decide) | simp [Check.fails, h1]
  · refine validateAndCharge_of_fails (c := .menu) ((h .menu).2 (Or.inl rfl)) (fun c' hc' => ?_)
    have hc : c'.fails i r ≠ true := fun hf => by
      rcases (h c').1 hf with rfl | rfl <;> exact absurd hc' (by decide)
    simpa using hc

/-- A concrete run for C3: the sample request with an empty token and the over-18 box
unticked is answered "Stripe token missing." -/
theorem C3_witness :
    noTokenMinorRequest.Token = "" ∧ noTokenMinorRequest.Over18 = false ∧
      MakeCharge sampleImpl (.ok noTokenMinorRequest) =
        { calls := []
          outcome := .response
            { code := 400
              body := [("status", "error"), ("message", "Stripe token missing.")] } } :=
  ⟨rfl, rfl, (C3_validation_short_circuits sampleImpl noTokenMinorRequest).2.2.1 rfl rfl⟩

/-- C8: `isOneOf x xs` is true exactly when `x` equals some element of `xs` (and false
for an empty `xs`); so the menu check of a request that reaches it passes exactly when the
starter is one of soup, salmon, pork, the main one of beef, salmon, chicken, mushrooms and
the dessert one of brownie, toffee, and otherwise the handler answers "Invalid food
selection.".  Soup, beef, brownie passes; a request whose starter is "pizza" ends in a
failure response whatever its other fields are. -/
theorem C8_menu_membership :
    (∀ (x : String) (xs : List String), isOneOf x xs = true ↔ x ∈ xs)
    ∧ (∀ x : String, isOneOf x [] = false)
    ∧ (∀ r : Request, badFoodSelection r = false ↔
        (r.Starter ∈ ["soup", "salmon", "pork"] ∧
          r.Main ∈ ["beef", "salmon", "chicken", "mushrooms"] ∧
          r.Dessert ∈ ["brownie", "toffee"]))
    ∧ (∀ (i : Impl) (r : Request),
        (∀ c ∈ [Check.token, .over18, .fullName, .email, .uun], c.fails i r = false) →
        (MakeCharge i (.ok r) =
            { calls := []
              outcome := .response
                { code := 400
                  body := [("status", "error"), ("message", "Invalid food selection.")] } }
          ↔ ¬ (r.Starter ∈ ["soup", "salmon", "pork"] ∧
                r.Main ∈ ["beef", "salmon", "chicken", "mushrooms"] ∧
                r.Dessert ∈ ["brownie", "toffee"])))
    ∧ (∀ r : Request, r.Starter = "soup" → r.Main = "beef" → r.Dessert = "brownie" →
        badFoodSelection r = false)
    ∧ (∀ (i : Impl) (r : Request), r.Starter = "pizza" →
        ∃ msg, MakeCharge i (.ok r) =
          { calls := []
            outcome := .response
              { code := 400, body := [("status", "error"), ("message", msg)] } }) := by
  have hmem : ∀ (x : String) (xs : List String), isOneOf x xs = true ↔ x ∈ xs := by
    intro x xs
    induction xs with
    | nil => simp [isOneOf]
    | cons v rest ih =>
      by_cases hv : v = x
      · simp [isOneOf, hv]
      · have hx : ¬ x = v := fun h => hv h.symm
        simp [isOneOf, hv, hx, ih]
  have hmenu : ∀ r : Request, badFoodSelection r = false ↔
      (r.Starter ∈ ["soup", "salmon", "pork"] ∧
        r.Main ∈ ["beef", "salmon", "chicken", "mushrooms"] ∧
        r.Dessert ∈ ["brownie", "toffee"]) := by
    intro r
    rw [← hmem, ← hmem, ← hmem]
    simp [badFoodSelection, and_assoc]
  refine ⟨hmem, fun _ => rfl, hmenu, ?_, ?_, ?_⟩
  · intro i r hreach
    have hearly : ∀ c', validationOrder.indexOf c' < validationOrder.indexOf Check.menu →
        c'.fails i r = false := fun c' hc' => by
      cases c' <;> first | exact absurd hc' (by decide) | exact hreach _ (by simp)
    rw [← hmenu]
    constructor
    · intro hrun hgood
      by_cases hlen : Check.specialRequests.fails i r = true
      · have hearly7 : ∀ c', validationOrder.indexOf c' <
            validationOrder.indexOf Check.specialRequests → c'.fails i r = false := by
          intro c' hc'
          cases c'
          case specialRequests => exact absurd hc' (by decide)
          case menu => exact hgood
          all_goals exact hreach _ (by simp)
        have h := validateAndCharge_of_fails (c := .specialRequests) hlen hearly7
        rw [show MakeCharge i (.ok r) = validateAndCharge i r from rfl, h] at hrun
        simp [Check.message, BadRequest] at hrun
      · have hv : Validated i r := by
          intro c
          cases c
          case specialRequests => simpa using hlen
          case menu => exact hgood
          all_goals exact hreach _ (by simp)
        rw [MakeCharge_of_validated hv] at hrun
        rcases placeOrder_cases i r with ⟨_, _, h⟩ | ⟨_, _, _, h⟩ | ⟨_, _, _, _, _, h⟩
          | ⟨_, _, _, _, _, _, _, h⟩
          | ⟨_, _, _, _, _, _, _, _, _, h⟩ | ⟨_, _, _, _, _, _, _, _, h⟩ <;>
          · rw [h] at hrun
            simp at hrun
    · intro hbad
      have hbad' : Check.menu.fails i r = true := by simpa [Check.fails] using hbad
      exact validateAndCharge_of_fails (c := .menu) hbad' hearly
  · intro r h1 h2 h3
    exact (hmenu r).2 (by simp [h1, h2, h3])
  · intro i r hpizza
    have hnv : ¬ Validated i r := fun hv => by
      have := (hmenu r).1 (hv .menu)
      simp [hpizza] at this
    exact validateAndCharge_of_not_validated hnv

/-- A concrete run for C8: the order of a pizza is refused with "Invalid food
selection." and no provider is called, while the sample menu passes the check. -/
theorem C8_witness :
    pizzaRequest.Starter = "pizza" ∧ badFoodSelection sampleRequest = false ∧
      isOneOf "Soup" ["soup", "salmon", "pork"] = false ∧
      ∃ msg, MakeCharge sampleImpl (.ok pizzaRequest) =
        { calls := []
          outcome := .response
            { code := 400, body := [("status", "error"), ("message", msg)] } } :=
  ⟨rfl, C8_menu_membership.2.2.2.2.1 sampleRequest rfl rfl rfl, by decide,
    C8_menu_membership.2.2.2.2.2 sampleImpl pizzaRequest rfl⟩

/-- C4: for a request that passes validation, when the availability check succeeds with
an inventory count of exactly zero the handler answers HTTP 410 with status "error" and
the sold-out message, and the availability check is the only call it made (no order, no
payment, no e-mail); for every non-zero count the outcome is not the sold-out response
and the next call is the order creation. -/
theorem C4_sold_out (i : Impl) (r : Request) (sku : SKU) (hv : Validated i r)
    (hsku : i.SkusGet i.ConfigSKU = .ok sku) :
    (sku.Inventory.Quantity = 0 →
      MakeCharge i (.ok r) =
        { calls := [.SkusGet i.ConfigSKU]
          outcome := .response
            { code := 410
              body := [("status", "error"),
                       ("message", "Sorry! We have run out of tickets... for now.")] } })
    ∧ (sku.Inventory.Quantity ≠ 0 →
      (MakeCharge i (.ok r)).outcome ≠
          .response
            { code := 410
              body := [("status", "error"),
                       ("message", "Sorry! We have run out of tickets... for now.")] }
        ∧ ∃ params rest,
            (MakeCharge i (.ok r)).calls = .SkusGet i.ConfigSKU :: .OrdersNew params :: rest) := by
  rw [MakeCharge_of_validated hv]
  constructor
  · intro hq
    simp [placeOrder, hsku, hq, StatusGone]
  · intro hq
    rcases placeOrder_cases i r with ⟨_, h1, _⟩ | ⟨s, h1, h0, _⟩ | ⟨_, _, _, _, _, h⟩
      | ⟨_, _, _, _, _, _, _, h⟩
      | ⟨_, _, _, _, _, _, _, _, _, h⟩ | ⟨_, _, _, _, _, _, _, _, h⟩
    · rw [hsku] at h1
      cases h1
    · rw [hsku] at h1
      cases h1
      exact absurd h0 hq
    all_goals
      rw [h]
      exact ⟨by simp [BadRequest, StatusBadRequest], _, _, rfl⟩

/-- A concrete run for C4: with no ticket left the sample request is answered 410 after
the availability check alone. -/
theorem C4_witness :
    Validated soldOutImpl sampleRequest ∧
      MakeCharge soldOutImpl (.ok sampleRequest) =
        { calls := [.SkusGet "sku_ticket"]
          outcome := .response
            { code := 410
              body := [("status", "error"),
                       ("message", "Sorry! We have run out of tickets... for now.")] } } :=
  ⟨sampleRequest_validated _ rfl rfl,
    (C4_sold_out soldOutImpl sampleRequest { Inventory := { Quantity := 0 } }
      (sampleRequest_validated _ rfl rfl) rfl).1 rfl⟩

/-- C5: an error of the Payment Provider is surfaced with status "error" and, as
message, the `Msg` of a structured provider error or else the text of `Error()`; the
HTTP status is 500 when the availability check or the order creation failed and 400
when the payment failed. -/
theorem C5_provider_errors (i : Impl) (r : Request) (hv : Validated i r) :
    (∀ err, i.SkusGet i.ConfigSKU = .error err →
      (MakeCharge i (.ok r)).outcome =
        .response
          { code := 500
            body := [("status", "error"),
                     ("message", match err with
                       | .stripeError Msg _ => Msg
                       | .other text => text)] })
    ∧ (∀ sku err, i.SkusGet i.ConfigSKU = .ok sku → sku.Inventory.Quantity ≠ 0 →
      i.OrdersNew (orderParams i r i.NewUUID) = .error err →
      (MakeCharge i (.ok r)).outcome =
        .response
          { code := 500
            body := [("status", "error"),
                     ("message", match err with
                       | .stripeError Msg _ => Msg
                       | .other text => text)] })
    ∧ (∀ sku order err, i.SkusGet i.ConfigSKU = .ok sku → sku.Inventory.Quantity ≠ 0 →
      i.OrdersNew (orderParams i r i.NewUUID) = .ok order →
      i.OrdersPay order.ID { Source := r.Token } = .error err →
      (MakeCharge i (.ok r)).outcome =
        .response
          { code := 400
            body := [("status", "error"),
                     ("message", match err with
                       | .stripeError Msg _ => Msg
                       | .other text => text)] }) := by
  rw [MakeCharge_of_validated hv]
  refine ⟨fun err h1 => ?_, fun sku err h1 hq h2 => ?_, fun sku order err h1 hq h2 h3 => ?_⟩
  · cases err <;>
      simp [placeOrder, h1, errorMessage, GoError.Error, StatusInternalServerError]
  · cases err <;>
      simp [placeOrder, h1, hq, h2, errorMessage, GoError.Error, StatusInternalServerError]
  · cases err <;>
      simp [placeOrder, h1, hq, h2, h3, errorMessage, GoError.Error, BadRequest,
        StatusBadRequest]

/-- A concrete run for C5: a declined card is answered 400 with the provider's own
message, not with the text of `Error()`. -/
theorem C5_witness :
    Validated declinedImpl sampleRequest ∧
      (MakeCharge declinedImpl (.ok sampleRequest)).outcome =
        .response
          { code := 400
            body := [("status", "error"), ("message", "Your card was declined.")] } :=
  ⟨sampleRequest_validated _ rfl rfl,
    (C5_provider_errors declinedImpl sampleRequest (sampleRequest_validated _ rfl rfl)).2.2
      { Inventory := { Quantity := 5 } } { ID := "or_1", Charge := { ID := "" } }
      (.stripeError "Your card was declined." "card_error: card_declined")
      rfl (by decide) rfl rfl⟩

/-- C6: in a run in which the confirmation e-mail is sent and the send reports failure,
the payment had succeeded, the run ends with the failure response of the send (HTTP 400,
never the 200 success response), and the send is the last call of the run: no refund,
cancellation or other Payment Provider call follows it. -/
theorem C6_email_failure_aborts (i : Impl) (bound : Except String Request)
    (n e id tok msg : String)
    (hsend : Call.SendTicketEmail n e id tok ∈ (MakeCharge i bound).calls)
    (hfail : i.MailProblem n e id tok = some msg) :
    (∃ payID params o, Call.OrdersPay payID params ∈ (MakeCharge i bound).calls ∧
        i.OrdersPay payID params = .ok o ∧ o.ID = id)
    ∧ (MakeCharge i bound).outcome =
        .response { code := 400, body := [("status", "error"), ("message", msg)] }
    ∧ (∀ resp, (MakeCharge i bound).outcome = .response resp → resp.code ≠ 200)
    ∧ (∀ pre post, (MakeCharge i bound).calls = pre ++ Call.SendTicketEmail n e id tok :: post →
        post = []) := by
  rcases MakeCharge_cases i bound with ⟨m, h, _⟩ | ⟨r, _, _, h⟩
  · rw [h] at hsend
    simp at hsend
  rw [h] at hsend ⊢
  rcases placeOrder_cases i r with ⟨_, _, h⟩ | ⟨_, _, _, h⟩ | ⟨_, _, _, _, _, h⟩
    | ⟨_, _, _, _, _, _, _, h⟩
    | ⟨sku, order, o, m, _, _, _, h3, h5, h⟩
    | ⟨sku, order, o, _, _, _, h3, h5, h⟩ <;> rw [h] at hsend ⊢ <;>
    simp at hsend
  · obtain ⟨rfl, rfl, rfl, rfl⟩ := hsend
    rw [hfail] at h5
    cases h5
    refine ⟨⟨_, _, o, by simp, h3, rfl⟩, rfl, ?_, ?_⟩
    · intro resp hresp
      cases hresp
      simp [BadRequest, StatusBadRequest]
    · intro pre post hsplit
      rcases pre with _ | ⟨x1, _ | ⟨x2, _ | ⟨x3, _ | ⟨x4, _ | ⟨x5, pre⟩⟩⟩⟩⟩ <;>
        simp at hsplit
      exact hsplit.2.2.2.2
  · obtain ⟨rfl, rfl, rfl, rfl⟩ := hsend
    rw [hfail] at h5
    cases h5

/-- A concrete run for C6: the e-mail provider refuses the confirmation e-mail of the
sample request; the run ends with the refusal and the send is its last call. -/
theorem C6_witness :
    MakeCharge mailFailureImpl (.ok sampleRequest) =
        { calls :=
            [.SkusGet "sku_ticket",
             .OrdersNew
               (orderParams mailFailureImpl sampleRequest "3f2c9a4e-0000-4000-8000-000000000001"),
             .OrdersPay "or_1" { Source := "tok_visa" },
             .ChargesUpdate "ch_1" { Desc := "Informatics Ball Ticket" },
             .SendTicketEmail "Ada Lovelace" "ada@example.org" "or_1"
               "3f2c9a4e-0000-4000-8000-000000000001"]
          outcome := .response
            { code := 400
              body := [("status", "error"), ("message", "Unable to send email.")] } }
      ∧ (MakeCharge mailFailureImpl (.ok sampleRequest)).outcome =
        .response
          { code := 400, body := [("status", "error"), ("message", "Unable to send email.")] } :=
  ⟨by decide,
    (C6_email_failure_aborts mailFailureImpl (.ok sampleRequest) "Ada Lovelace"
      "ada@example.org" "or_1" "3f2c9a4e-0000-4000-8000-000000000001" "Unable to send email."
      (by decide) rfl).2.1⟩

/-- C1 (as amended): for a request that passes validation, when the availability check
answers with a non-zero inventory count and the order creation, the payment and the
confirmation e-mail all succeed, the handler makes its five calls and answers HTTP 200
with status "success" and, as data, the identifier of the order returned by the payment
call made on the created order's id; that is the created order's identifier whenever the
provider returns the paid order under the id it was created with. -/
theorem C1_success_returns_paid_order_id (i : Impl) (r : Request) (sku : SKU)
    (order o : Order) (hv : Validated i r)
    (hsku : i.SkusGet i.ConfigSKU = .ok sku) (hq : sku.Inventory.Quantity ≠ 0)
    (hnew : i.OrdersNew (orderParams i r i.NewUUID) = .ok order)
    (hpay : i.OrdersPay order.ID { Source := r.Token } = .ok o)
    (hmail : i.MailProblem r.FullName r.Email o.ID i.NewUUID = none) :
    MakeCharge i (.ok r) =
        { calls := [.SkusGet i.ConfigSKU, .OrdersNew (orderParams i r i.NewUUID),
                    .OrdersPay order.ID { Source := r.Token },
                    .ChargesUpdate o.Charge.ID { Desc := "Informatics Ball Ticket" },
                    .SendTicketEmail r.FullName r.Email o.ID i.NewUUID]
          outcome := .response
            { code := 200, body := [("status", "success"), ("data", o.ID)] } }
      ∧ (o.ID = order.ID →
        (MakeCharge i (.ok r)).outcome =
          .response { code := 200, body := [("status", "success"), ("data", order.ID)] }) := by
  have hrun : MakeCharge i (.ok r) =
      { calls := [.SkusGet i.ConfigSKU, .OrdersNew (orderParams i r i.NewUUID),
                  .OrdersPay order.ID { Source := r.Token },
                  .ChargesUpdate o.Charge.ID { Desc := "Informatics Ball Ticket" },
                  .SendTicketEmail r.FullName r.Email o.ID i.NewUUID]
        outcome := .response
          { code := 200, body := [("status", "success"), ("data", o.ID)] } } := by
    rw [MakeCharge_of_validated hv]
    simp [placeOrder, hsku, hq, hnew, hpay, SendTicketEmail, hmail, StatusOK]
  refine ⟨hrun, fun hid => ?_⟩
  rw [hrun, hid]

/-- A concrete run for C1: with collaborators that all succeed, the sample request is
answered 200 with the id of the paid order. -/
theorem C1_witness :
    Validated sampleImpl sampleRequest ∧
      MakeCharge sampleImpl (.ok sampleRequest) =
        { calls :=
            [.SkusGet "sku_ticket",
             .OrdersNew
               (orderParams sampleImpl sampleRequest "3f2c9a4e-0000-4000-8000-000000000001"),
             .OrdersPay "or_1" { Source := "tok_visa" },
             .ChargesUpdate "ch_1" { Desc := "Informatics Ball Ticket" },
             .SendTicketEmail "Ada Lovelace" "ada@example.org" "or_1"
               "3f2c9a4e-0000-4000-8000-000000000001"]
          outcome := .response
            { code := 200, body := [("status", "success"), ("data", "or_1")] } } :=
  ⟨sampleRequest_validated _ rfl rfl,
    (C1_success_returns_paid_order_id sampleImpl sampleRequest { Inventory := { Quantity := 5 } }
      { ID := "or_1", Charge := { ID := "" } } { ID := "or_1", Charge := { ID := "ch_1" } }
      (sampleRequest_validated _ rfl rfl) rfl (by decide) rfl rfl rfl).1⟩

/-- C1 fails as stated: every check passes, five tickets are left, the order creation
returns the order `or_1`, the payment made on `or_1` succeeds and returns the paid order
under the id `or_2`, the confirmation e-mail succeeds, and the data of the 200 response is
`or_2`, not the identifier of the order that the creation call returned. -/
theorem C1_counterexample :
    Validated renamingImpl sampleRequest
    ∧ renamingImpl.SkusGet renamingImpl.ConfigSKU = .ok { Inventory := { Quantity := 5 } }
    ∧ renamingImpl.OrdersNew (orderParams renamingImpl sampleRequest renamingImpl.NewUUID) =
        .ok { ID := "or_1", Charge := { ID := "" } }
    ∧ renamingImpl.OrdersPay "or_1" { Source := sampleRequest.Token } =
        .ok { ID := "or_2", Charge := { ID := "ch_1" } }
    ∧ renamingImpl.MailProblem sampleRequest.FullName sampleRequest.Email "or_2"
        renamingImpl.NewUUID = none
    ∧ (MakeCharge renamingImpl (.ok sampleRequest)).outcome =
        .response { code := 200, body := [("status", "success"), ("data", "or_2")] }
    ∧ (MakeCharge renamingImpl (.ok sampleRequest)).outcome ≠
        .response { code := 200, body := [("status", "success"), ("data", "or_1")] } :=
  ⟨sampleRequest_validated _ rfl rfl, rfl, rfl, rfl, rfl, by decide, by decide⟩

/-- C2 (as amended): in every run the provider calls, by kind, are an initial segment of
availability check, order creation, payment, charge annotation, confirmation e-mail, each
made at most once; a call is made only if the request passed every validation check and
every earlier call other than the fire-and-forget charge annotation succeeded (the
availability check with a non-zero count).  A request that could not be decoded or that
fails a validation check leads to no call at all, and when the payment fails no
confirmation e-mail is sent.  Once the payment has succeeded the annotation is launched
and the confirmation e-mail is sent right after it, whatever the annotation answers. -/
theorem C2_calls_in_order (i : Impl) (bound : Except String Request) :
    ((MakeCharge i bound).calls.map Call.kind <+:
        [.availability, .createOrder, .payOrder, .annotateCharge, .sendEmail])
    ∧ ((MakeCharge i bound).calls.map Call.kind).Nodup
    ∧ (∀ pre c post, (MakeCharge i bound).calls = pre ++ c :: post →
        (∃ r, bound = .ok r ∧ Validated i r) ∧
          ∀ c' ∈ pre, c'.kind ≠ .annotateCharge → c'.succeeded i = true)
    ∧ (∀ r (c : Check), bound = .ok r → c.fails i r = true → (MakeCharge i bound).calls = [])
    ∧ (∀ err, bound = .error err → (MakeCharge i bound).calls = [])
    ∧ (∀ c ∈ (MakeCharge i bound).calls, c.kind = .payOrder → c.succeeded i = false →
        ∀ c' ∈ (MakeCharge i bound).calls, c'.kind ≠ .sendEmail)
    ∧ (∀ id p, Call.ChargesUpdate id p ∈ (MakeCharge i bound).calls →
        ∃ pre n e oid tok,
          (MakeCharge i bound).calls =
            pre ++ [.ChargesUpdate id p, .SendTicketEmail n e oid tok])
    ∧ (∀ r sku order o (update : String → ChargeParams → UpdateOutcome),
        bound = .ok r → Validated i r →
        i.SkusGet i.ConfigSKU = .ok sku → sku.Inventory.Quantity ≠ 0 →
        i.OrdersNew (orderParams i r i.NewUUID) = .ok order →
        i.OrdersPay order.ID { Source := r.Token } = .ok o →
        (MakeCharge { i with ChargesUpdate := update } bound).calls =
          [.SkusGet i.ConfigSKU, .OrdersNew (orderParams i r i.NewUUID),
           .OrdersPay order.ID { Source := r.Token },
           .ChargesUpdate o.Charge.ID { Desc := "Informatics Ball Ticket" },
           .SendTicketEmail r.FullName r.Email o.ID i.NewUUID]) := by
  have hsent : ∀ r sku order o (update : String → ChargeParams → UpdateOutcome),
      bound = .ok r → Validated i r →
      i.SkusGet i.ConfigSKU = .ok sku → sku.Inventory.Quantity ≠ 0 →
      i.OrdersNew (orderParams i r i.NewUUID) = .ok order →
      i.OrdersPay order.ID { Source := r.Token } = .ok o →
      (MakeCharge { i with ChargesUpdate := update } bound).calls =
        [.SkusGet i.ConfigSKU, .OrdersNew (orderParams i r i.NewUUID),
         .OrdersPay order.ID { Source := r.Token },
         .ChargesUpdate o.Charge.ID { Desc := "Informatics Ball Ticket" },
         .SendTicketEmail r.FullName r.Email o.ID i.NewUUID] := by
    intro r sku order o update hb hv h1 hq h2 h3
    subst hb
    have hv' : Validated { i with ChargesUpdate := update } r := hv
    rw [MakeCharge_of_validated hv']
    have h2' : i.OrdersNew (orderParams { i with ChargesUpdate := update } r i.NewUUID) =
        .ok order := h2
    cases h5 : i.MailProblem r.FullName r.Email o.ID i.NewUUID <;>
      simp [placeOrder, h1, hq, h2', h3, SendTicketEmail, h5] <;> rfl
  rcases MakeCharge_cases i bound with ⟨m, h, hnv⟩ | ⟨r, hb, hv, h⟩
  · rw [h]
    refine ⟨by simp, by simp, fun pre c post hsplit => ?_, fun _ _ _ _ => rfl,
      fun _ _ => rfl, by simp, by simp, hsent⟩
    simp at hsplit
  have hearlier : (∀ c' ∈ (placeOrder i r).calls.dropLast, c'.kind ≠ .annotateCharge →
      c'.succeeded i = true) →
      ∀ pre c post, (placeOrder i r).calls = pre ++ c :: post →
        (∃ r, bound = .ok r ∧ Validated i r) ∧
          ∀ c' ∈ pre, c'.kind ≠ .annotateCharge → c'.succeeded i = true :=
    fun hall pre c post hsplit =>
      ⟨⟨r, hb, hv⟩, fun c' hc' => hall c' (mem_dropLast_of_split hsplit hc')⟩
  have hfails : ∀ r' (c : Check), bound = .ok r' → c.fails i r' = true →
      (MakeCharge i bound).calls = [] := fun r' c hb' hc => by
    rw [hb] at hb'
    cases hb'
    rw [hv c] at hc
    cases hc
  have herr : ∀ err, bound = .error err → (MakeCharge i bound).calls = [] := fun err hb' => by
    rw [hb] at hb'
    cases hb'
  refine ⟨?_, ?_, ?_, hfails, herr, ?_, ?_, hsent⟩ <;> rw [h] <;> clear hfails herr hsent
  · rcases placeOrder_cases i r with ⟨_, _, h⟩ | ⟨_, _, _, h⟩ | ⟨_, _, _, _, _, h⟩
      | ⟨_, _, _, _, _, _, _, h⟩
      | ⟨_, _, _, _, _, _, _, _, _, h⟩ | ⟨_, _, _, _, _, _, _, _, h⟩ <;>
      rw [h] <;> simp only [List.map, Call.kind]
    · exact ⟨[.createOrder, .payOrder, .annotateCharge, .sendEmail], rfl⟩
    · exact ⟨[.createOrder, .payOrder, .annotateCharge, .sendEmail], rfl⟩
    · exact ⟨[.payOrder, .annotateCharge, .sendEmail], rfl⟩
    · exact ⟨[.annotateCharge, .sendEmail], rfl⟩
    · exact ⟨[], rfl⟩
    · exact ⟨[], rfl⟩
  · rcases placeOrder_cases i r with ⟨_, _, h⟩ | ⟨_, _, _, h⟩ | ⟨_, _, _, _, _, h⟩
      | ⟨_, _, _, _, _, _, _, h⟩
      | ⟨_, _, _, _, _, _, _, _, _, h⟩ | ⟨_, _, _, _, _, _, _, _, h⟩ <;>
      rw [h] <;> simp [Call.kind]
  · apply hearlier
    rcases placeOrder_cases i r with ⟨_, _, h⟩ | ⟨_, _, _, h⟩ | ⟨_, _, h1, hq, _, h⟩
      | ⟨_, _, _, h1, hq, h2, _, h⟩
      | ⟨_, _, _, _, h1, hq, h2, h3, _, h⟩ | ⟨_, _, _, h1, hq, h2, h3, _, h⟩ <;>
      rw [h] <;> simp [Call.kind, Call.succeeded, *]
  · rcases placeOrder_cases i r with ⟨_, _, h⟩ | ⟨_, _, _, h⟩ | ⟨_, _, h1, hq, _, h⟩
      | ⟨_, _, _, h1, hq, h2, _, h⟩
      | ⟨_, _, _, _, h1, hq, h2, h3, _, h⟩ | ⟨_, _, _, h1, hq, h2, h3, _, h⟩ <;>
      rw [h] <;> simp [Call.kind, Call.succeeded, *]
  · intro id p hmem
    rcases placeOrder_cases i r with ⟨_, _, h⟩ | ⟨_, _, _, h⟩ | ⟨_, _, _, _, _, h⟩
      | ⟨_, _, _, _, _, _, _, h⟩
      | ⟨_, order, o, _, _, _, _, _, _, h⟩ | ⟨_, order, o, _, _, _, _, _, h⟩ <;>
      rw [h] at hmem ⊢ <;> simp at hmem
    · obtain ⟨rfl, rfl⟩ := hmem
      exact ⟨[.SkusGet i.ConfigSKU, .OrdersNew (orderParams i r i.NewUUID),
        .OrdersPay order.ID { Source := r.Token }], _, _, _, _, rfl⟩
    · obtain ⟨rfl, rfl⟩ := hmem
      exact ⟨[.SkusGet i.ConfigSKU, .OrdersNew (orderParams i r i.NewUUID),
        .OrdersPay order.ID { Source := r.Token }], _, _, _, _, rfl⟩

/-- A concrete run for C2: when the card of the sample request is declined the run stops
after the payment call and no confirmation e-mail is sent; when the payment succeeds and
the annotation is refused, the confirmation e-mail is sent all the same. -/
theorem C2_witness :
    (MakeCharge declinedImpl (.ok sampleRequest)).calls.map Call.kind =
        [.availability, .createOrder, .payOrder]
      ∧ ((MakeCharge declinedImpl (.ok sampleRequest)).calls.map Call.kind <+:
        [.availability, .createOrder, .payOrder, .annotateCharge, .sendEmail])
      ∧ (∀ c' ∈ (MakeCharge declinedImpl (.ok sampleRequest)).calls, c'.kind ≠ .sendEmail)
      ∧ (MakeCharge
            { sampleImpl with
              ChargesUpdate := fun _ _ => .failure (.other "charge update refused") }
            (.ok sampleRequest)).calls =
          [.SkusGet "sku_ticket",
           .OrdersNew
             (orderParams sampleImpl sampleRequest "3f2c9a4e-0000-4000-8000-000000000001"),
           .OrdersPay "or_1" { Source := "tok_visa" },
           .ChargesUpdate "ch_1" { Desc := "Informatics Ball Ticket" },
           .SendTicketEmail "Ada Lovelace" "ada@example.org" "or_1"
             "3f2c9a4e-0000-4000-8000-000000000001"] :=
  ⟨by decide, (C2_calls_in_order declinedImpl (.ok sampleRequest)).1,
    (C2_calls_in_order declinedImpl (.ok sampleRequest)).2.2.2.2.2.1
      (.OrdersPay "or_1" { Source := "tok_visa" }) (by decide) rfl rfl,
    (C2_calls_in_order sampleImpl (.ok sampleRequest)).2.2.2.2.2.2.2 sampleRequest
      { Inventory := { Quantity := 5 } } { ID := "or_1", Charge := { ID := "" } }
      { ID := "or_1", Charge := { ID := "ch_1" } }
      (fun _ _ => .failure (.other "charge update refused")) rfl
      (sampleRequest_validated _ rfl rfl) rfl (by decide) rfl rfl⟩

/-- C2 fails as stated: the background annotation of the charge ends with an error and
the confirmation e-mail, the next call of the sequence, is sent all the same; so not every
call of the run was made only after every earlier call had succeeded. -/
theorem C2_counterexample :
    (MakeCharge failedAnnotationImpl (.ok sampleRequest)).calls =
        [.SkusGet "sku_ticket",
         .OrdersNew
           (orderParams failedAnnotationImpl sampleRequest "3f2c9a4e-0000-4000-8000-000000000001"),
         .OrdersPay "or_1" { Source := "tok_visa" },
         .ChargesUpdate "ch_1" { Desc := "Informatics Ball Ticket" },
         .SendTicketEmail "Ada Lovelace" "ada@example.org" "or_1"
           "3f2c9a4e-0000-4000-8000-000000000001"]
    ∧ failedAnnotationImpl.ChargesUpdate "ch_1" { Desc := "Informatics Ball Ticket" } =
        .failure (.other "charge update refused")
    ∧ ¬ (∀ pre c post,
          (MakeCharge failedAnnotationImpl (.ok sampleRequest)).calls = pre ++ c :: post →
          ∀ c' ∈ pre, c'.succeeded failedAnnotationImpl = true) := by
  refine ⟨by decide, rfl, fun hall => ?_⟩
  have h := hall
    [.SkusGet "sku_ticket",
     .OrdersNew
       (orderParams failedAnnotationImpl sampleRequest "3f2c9a4e-0000-4000-8000-000000000001"),
     .OrdersPay "or_1" { Source := "tok_visa" },
     .ChargesUpdate "ch_1" { Desc := "Informatics Ball Ticket" }]
    (.SendTicketEmail "Ada Lovelace" "ada@example.org" "or_1"
      "3f2c9a4e-0000-4000-8000-000000000001")
    [] (by decide) (.ChargesUpdate "ch_1" { Desc := "Informatics Ball Ticket" }) (by simp)
  exact absurd h (by decide)

/-- C7 (as amended): in a run that reaches order creation exactly one order-creation
call is made.  Its parameters are one item of type "sku" whose parent is the configured
product and whose quantity is left unset (the handler writes no quantity), currency GBP,
and metadata mapping uun to the submitted UUN, purchaser_name and owner_name to the
submitted fullName, purchaser_email and owner_email to the submitted email, over18 to
"true", meal_starter, meal_main, meal_dessert to the three meal choices, special_requests
to the submitted text and auth_token to the token generated for this request, which is the
token of any confirmation e-mail sent later in the run. -/
theorem C7_order_parameters (i : Impl) (bound : Except String Request) (params : OrderParams)
    (hreach : Call.OrdersNew params ∈ (MakeCharge i bound).calls) :
    ∃ r, bound = .ok r
      ∧ (MakeCharge i bound).calls.filter (fun c => decide (c.kind = .createOrder)) =
          [.OrdersNew params]
      ∧ params.Items = [{ ItemType := "sku", Parent := i.ConfigSKU, Quantity := none }]
      ∧ params.Currency = "gbp"
      ∧ params.Meta.map Prod.fst =
          ["uun", "purchaser_email", "purchaser_name", "owner_email", "owner_name", "over18",
           "meal_starter", "meal_main", "meal_dessert", "special_requests", "auth_token"]
      ∧ params.Meta.lookup "uun" = some r.UUN
      ∧ params.Meta.lookup "purchaser_name" = some r.FullName
      ∧ params.Meta.lookup "owner_name" = some r.FullName
      ∧ params.Meta.lookup "purchaser_email" = some r.Email
      ∧ params.Meta.lookup "owner_email" = some r.Email
      ∧ params.Meta.lookup "over18" = some "true"
      ∧ params.Meta.lookup "meal_starter" = some r.Starter
      ∧ params.Meta.lookup "meal_main" = some r.Main
      ∧ params.Meta.lookup "meal_dessert" = some r.Dessert
      ∧ params.Meta.lookup "special_requests" = some r.SpecialReqs
      ∧ params.Meta.lookup "auth_token" = some i.NewUUID
      ∧ (∀ n e id tok, Call.SendTicketEmail n e id tok ∈ (MakeCharge i bound).calls →
          params.Meta.lookup "auth_token" = some tok) := by
  rcases MakeCharge_cases i bound with ⟨m, h, _⟩ | ⟨r, hb, hv, h⟩
  · rw [h] at hreach
    simp at hreach
  have hover : r.Over18 = true := ((validated_iff i r).1 hv).2.1
  have hparams : Call.OrdersNew params ∈ (placeOrder i r).calls →
      params = orderParams i r i.NewUUID := by
    intro hmem
    rcases placeOrder_cases i r with ⟨_, _, h⟩ | ⟨_, _, _, h⟩ | ⟨_, _, _, _, _, h⟩
      | ⟨_, _, _, _, _, _, _, h⟩
      | ⟨_, _, _, _, _, _, _, _, _, h⟩ | ⟨_, _, _, _, _, _, _, _, h⟩ <;>
      rw [h] at hmem <;> simp at hmem <;> exact hmem
  rw [h] at hreach ⊢
  have hp := hparams hreach
  subst hp
  refine ⟨r, hb, ?_, rfl, rfl, rfl, rfl, rfl, rfl, rfl, rfl, ?_, rfl, rfl, rfl, rfl, rfl, ?_⟩
  · rcases placeOrder_cases i r with ⟨_, _, h⟩ | ⟨_, _, _, h⟩ | ⟨_, _, _, _, _, h⟩
      | ⟨_, _, _, _, _, _, _, h⟩
      | ⟨_, _, _, _, _, _, _, _, _, h⟩ | ⟨_, _, _, _, _, _, _, _, h⟩ <;>
      rw [h] at hreach ⊢ <;> simp [Call.kind, List.filter] at hreach ⊢
  · simp [orderParams, hover, FormatBool, List.lookup]
  · intro n e id tok hsend
    rcases placeOrder_cases i r with ⟨_, _, h⟩ | ⟨_, _, _, h⟩ | ⟨_, _, _, _, _, h⟩
      | ⟨_, _, _, _, _, _, _, h⟩
      | ⟨_, _, _, _, _, _, _, _, _, h⟩ | ⟨_, _, _, _, _, _, _, _, h⟩ <;>
      rw [h] at hsend <;> simp at hsend <;>
      · rw [hsend.2.2.2]
        rfl

/-- A concrete run for C7: the order created for the sample request. -/
theorem C7_witness :
    Call.OrdersNew
        { Currency := "gbp"
          Items := [{ ItemType := "sku", Parent := "sku_ticket", Quantity := none }]
          Meta :=
            [("uun", "s1234567"), ("purchaser_email", "ada@example.org"),
             ("purchaser_name", "Ada Lovelace"), ("owner_email", "ada@example.org"),
             ("owner_name", "Ada Lovelace"), ("over18", "true"), ("meal_starter", "soup"),
             ("meal_main", "beef"), ("meal_dessert", "brownie"),
             ("special_requests", "no nuts"),
             ("auth_token", "3f2c9a4e-0000-4000-8000-000000000001")]
          Email := "ada@example.org" } ∈ (MakeCharge sampleImpl (.ok sampleRequest)).calls
      ∧ (MakeCharge sampleImpl (.ok sampleRequest)).calls.filter
            (fun c => decide (c.kind = .createOrder)) =
          [.OrdersNew
            { Currency := "gbp"
              Items := [{ ItemType := "sku", Parent := "sku_ticket", Quantity := none }]
              Meta :=
                [("uun", "s1234567"), ("purchaser_email", "ada@example.org"),
                 ("purchaser_name", "Ada Lovelace"), ("owner_email", "ada@example.org"),
                 ("owner_name", "Ada Lovelace"), ("over18", "true"),
                 ("meal_starter", "soup"), ("meal_main", "beef"),
                 ("meal_dessert", "brownie"), ("special_requests", "no nuts"),
                 ("auth_token", "3f2c9a4e-0000-4000-8000-000000000001")]
              Email := "ada@example.org" }] :=
  ⟨by decide,
    Exists.elim (C7_order_parameters sampleImpl (.ok sampleRequest) _
      (show Call.OrdersNew
        { Currency := "gbp"
          Items := [{ ItemType := "sku", Parent := "sku_ticket", Quantity := none }]
          Meta :=
            [("uun", "s1234567"), ("purchaser_email", "ada@example.org"),
             ("purchaser_name", "Ada Lovelace"), ("owner_email", "ada@example.org"),
             ("owner_name", "Ada Lovelace"), ("over18", "true"), ("meal_starter", "soup"),
             ("meal_main", "beef"), ("meal_dessert", "brownie"),
             ("special_requests", "no nuts"),
             ("auth_token", "3f2c9a4e-0000-4000-8000-000000000001")]
          Email := "ada@example.org" } ∈ (MakeCharge sampleImpl (.ok sampleRequest)).calls
        by decide))
      (fun _ h => h.2.1)⟩

/-- C7 fails as stated: the one item of the order created for the sample request carries
no quantity; the handler leaves the field unset, it does not set it to 1. -/
theorem C7_counterexample :
    Call.OrdersNew (orderParams sampleImpl sampleRequest sampleImpl.NewUUID) ∈
        (MakeCharge sampleImpl (.ok sampleRequest)).calls
    ∧ (orderParams sampleImpl sampleRequest sampleImpl.NewUUID).Items =
        [{ ItemType := "sku", Parent := "sku_ticket", Quantity := none }]
    ∧ ¬ (∀ item ∈ (orderParams sampleImpl sampleRequest sampleImpl.NewUUID).Items,
          item.Quantity = some 1) := by
  refine ⟨by decide, rfl, fun h => ?_⟩
  have := h { ItemType := "sku", Parent := "sku_ticket", Quantity := none } (by decide)
  cases this

/-- C9, the run that departs from the claim: the special-requests text of 251
characters, each two bytes long in UTF-8, passes the six earlier checks and is refused
with the 500-character message, because the handler compares the length in bytes (502)
with 500. -/
theorem C9_accented_text_rejected :
    accentedRequest.SpecialReqs.length = 251
    ∧ accentedRequest.SpecialReqs.utf8ByteSize = 502
    ∧ (∀ c ∈ [Check.token, .over18, .fullName, .email, .uun, .menu],
        c.fails sampleImpl accentedRequest = false)
    ∧ MakeCharge sampleImpl (.ok accentedRequest) =
        { calls := []
          outcome := .response
            { code := 400
              body := [("status", "error"),
                       ("message", "Sorry, your request is limited to 500 characters. Please email infball@comp-soc.com for assistance.")] } } := by
  set_option maxRecDepth 100000 in
  refine ⟨by decide, by decide, by decide, by decide⟩

/-- The length check of the handler counts bytes: a request that passes the six earlier
checks is refused with the 500-character message exactly when the UTF-8 encoding of its
special-requests text is longer than 500 bytes. -/
theorem specialRequests_limit_counts_bytes (i : Impl) (r : Request)
    (hsix : ∀ c ∈ [Check.token, .over18, .fullName, .email, .uun, .menu], c.fails i r = false) :
    MakeCharge i (.ok r) =
        { calls := []
          outcome := .response
            { code := 400
              body := [("status", "error"),
                       ("message", "Sorry, your request is limited to 500 characters. Please email infball@comp-soc.com for assistance.")] } }
      ↔ r.SpecialReqs.utf8ByteSize > 500 := by
  constructor
  · intro hrun
    by_contra hlen
    have hv : Validated i r := by
      intro c
      cases c
      case specialRequests => simpa [Check.fails] using hlen
      all_goals exact hsix _ (by simp)
    rw [MakeCharge_of_validated hv] at hrun
    rcases placeOrder_cases i r with ⟨_, _, h⟩ | ⟨_, _, _, h⟩ | ⟨_, _, _, _, _, h⟩
      | ⟨_, _, _, _, _, _, _, h⟩
      | ⟨_, _, _, _, _, _, _, _, _, h⟩ | ⟨_, _, _, _, _, _, _, _, h⟩ <;>
      · rw [h] at hrun
        simp at hrun
  · intro hlen
    refine validateAndCharge_of_fails (c := .specialRequests) (by simpa [Check.fails] using hlen)
      (fun c' hc' => ?_)
    cases c'
    case specialRequests => exact absurd hc' (by decide)
    all_goals exact hsix _ (by simp)

/-- C10: the charge annotation is fire-and-forget.  In every run in which the payment
succeeds, whatever `Charges.Update` answers (success, an error, or nothing at all) the run
is the same, so the response and the arguments of the confirmation e-mail are the same;
and for every order the payment can return, also one whose charge is the zero value, the
annotation is launched with description "Informatics Ball Ticket" on that order's charge,
the confirmation e-mail is sent next, and the response is decided by the e-mail alone:
200 when the send succeeds, the failure of the send otherwise. -/
theorem C10_annotation_fire_and_forget (i : Impl) (r : Request) (sku : SKU)
    (order o : Order) (hv : Validated i r)
    (hsku : i.SkusGet i.ConfigSKU = .ok sku) (hq : sku.Inventory.Quantity ≠ 0)
    (hnew : i.OrdersNew (orderParams i r i.NewUUID) = .ok order)
    (hpay : i.OrdersPay order.ID { Source := r.Token } = .ok o) :
    (∀ update update' : String → ChargeParams → UpdateOutcome,
        MakeCharge { i with ChargesUpdate := update } (.ok r) =
          MakeCharge { i with ChargesUpdate := update' } (.ok r))
    ∧ (MakeCharge i (.ok r)).calls =
        [.SkusGet i.ConfigSKU, .OrdersNew (orderParams i r i.NewUUID),
         .OrdersPay order.ID { Source := r.Token },
         .ChargesUpdate o.Charge.ID { Desc := "Informatics Ball Ticket" },
         .SendTicketEmail r.FullName r.Email o.ID i.NewUUID]
    ∧ (i.MailProblem r.FullName r.Email o.ID i.NewUUID = none →
        (MakeCharge i (.ok r)).outcome =
          .response { code := 200, body := [("status", "success"), ("data", o.ID)] })
    ∧ (∀ msg, i.MailProblem r.FullName r.Email o.ID i.NewUUID = some msg →
        (MakeCharge i (.ok r)).outcome =
          .response { code := 400, body := [("status", "error"), ("message", msg)] }) := by
  refine ⟨fun _ _ => rfl, ?_, fun hmail => ?_, fun msg hmail => ?_⟩ <;>
    rw [MakeCharge_of_validated hv]
  · cases h5 : i.MailProblem r.FullName r.Email o.ID i.NewUUID <;>
      simp [placeOrder, hsku, hq, hnew, hpay, SendTicketEmail, h5]
  · simp [placeOrder, hsku, hq, hnew, hpay, SendTicketEmail, hmail, StatusOK]
  · simp [placeOrder, hsku, hq, hnew, hpay, SendTicketEmail, hmail, BadRequest,
      StatusBadRequest]

/-- A concrete run for C10: the payment of the sample request returns an order without a
charge and the annotation never completes; the annotation is launched on the empty charge
id, the confirmation e-mail is sent and the request is answered 200. -/
theorem C10_witness :
    noChargeImpl.OrdersPay "or_1" { Source := "tok_visa" } =
        .ok { ID := "or_1", Charge := { ID := "" } }
      ∧ (MakeCharge noChargeImpl (.ok sampleRequest)).calls =
        [.SkusGet "sku_ticket",
         .OrdersNew
           (orderParams noChargeImpl sampleRequest "3f2c9a4e-0000-4000-8000-000000000001"),
         .OrdersPay "or_1" { Source := "tok_visa" },
         .ChargesUpdate "" { Desc := "Informatics Ball Ticket" },
         .SendTicketEmail "Ada Lovelace" "ada@example.org" "or_1"
           "3f2c9a4e-0000-4000-8000-000000000001"]
      ∧ (MakeCharge noChargeImpl (.ok sampleRequest)).outcome =
        .response { code := 200, body := [("status", "success"), ("data", "or_1")] } :=
  have h := C10_annotation_fire_and_forget noChargeImpl sampleRequest
    { Inventory := { Quantity := 5 } } { ID := "or_1", Charge := { ID := "" } }
    { ID := "or_1", Charge := { ID := "" } } (sampleRequest_validated _ rfl rfl) rfl
    (by decide) rfl rfl
  ⟨rfl, h.2.1, h.2.2.1 rfl⟩

end charge
